import Mathlib

/-!
Verification of the Online-harm-detection moderation core.

The development shallowly embeds the two source modules:

* `admin.py` — ledger loading with label backfill (`load_comments_data`),
  inference with swallowed errors (`detect_toxic_comments`), and the
  training pipeline (`train_model`);
* `user.py` — artifact loading (`load_model`), inference
  (`predict_toxicity`), and the interactive moderation workflow encoded
  as a step function over the Streamlit session state (`step`).

The sklearn / joblib artifacts are abstracted over the feature-vector
type `Vec`: a fitted vectorizer is a `transform` function, a fitted
classifier is a `predict` function.  File-system state (the pickled
artifacts, the comments CSV) is passed explicitly.
-/

namespace OnlineHarm

/-- A fitted TF-IDF vectorizer artifact (`tfidf_vectorizer.pkl`):
its only operation used at inference time is `transform` on one text. -/
structure Tfidf (Vec : Type) where
  transform : String → Vec

/-- A fitted classifier artifact (`toxic_comment_model.pkl`): its only
operation used at inference time is `predict`, returning the numeric
label of the input vector. -/
structure Model (Vec : Type) where
  predict : Vec → Nat

/-- The on-disk artifact store: `joblib.load` of a missing or corrupt
pickle raises, modelled by the corresponding component being `none`. -/
structure Store (Vec : Type) where
  tfidf : Option (Tfidf Vec)
  model : Option (Model Vec)

/-- Embeds `user.py::predict_toxicity`: transform the comment, predict,
and compare the first prediction with 1. -/
def predict_toxicity {Vec : Type} (comment : String) (tfidf : Tfidf Vec)
    (model : Model Vec) : Bool :=
  model.predict (tfidf.transform comment) == 1

/-- Embeds `user.py::load_model`: load the vectorizer, then the model;
on any load failure the code calls `st.error` followed by `st.stop`,
which aborts the script run — modelled as `Except.error`. -/
def load_model {Vec : Type} (store : Store Vec) :
    Except String (Tfidf Vec × Model Vec) :=
  match store.tfidf with
  | none => .error "Model not found."
  | some tf =>
    match store.model with
    | none => .error "Model not found."
    | some m => .ok (tf, m)

/-- Result of `admin.py::detect_toxic_comments`: the boolean label the
call returns, plus whether the `except` branch displayed `st.error`
before returning that label. -/
structure DetectResult where
  label : Bool
  errorShown : Bool
  deriving DecidableEq, Repr

/-- Embeds `admin.py::detect_toxic_comments`: a NaN or empty comment
returns `False` directly; otherwise the two artifacts are loaded inside
a `try` block and `bool(model.predict(...)[0])` is returned.  Any load
failure is caught, `st.error` is displayed, and the function returns
`False` — it does not re-raise. -/
def detect_toxic_comments {Vec : Type} (store : Store Vec)
    (comment : Option String) : DetectResult :=
  match comment with
  | none => ⟨false, false⟩
  | some c =>
    if c = "" then ⟨false, false⟩
    else
      match store.tfidf, store.model with
      | some tf, some m => ⟨m.predict (tf.transform c) != 0, false⟩
      | _, _ => ⟨false, true⟩

/-- One raw row of `submitted_comments.csv` as read by `pd.read_csv`:
optional fields model NaN cells. -/
structure CsvRow where
  comment : Option String
  username : String
  timestamp : Option String
  profile_color : String
  avatar : String
  is_toxic : Option Bool
  deriving DecidableEq, Repr

/-- The comments CSV file contents: whether the `is_toxic` column exists
at all, and the parsed rows. -/
structure CommentsCsv where
  hasToxicCol : Bool
  rows : List CsvRow
  deriving DecidableEq, Repr

/-- A row of the dataframe returned by `load_comments_data`, after
`fillna(False).astype(bool)` every `is_toxic` value is a genuine
boolean. -/
structure LoadedRow where
  comment : Option String
  username : String
  timestamp : Option String
  profile_color : String
  avatar : String
  is_toxic : Bool
  deriving DecidableEq, Repr

/-- The backfill branch of `load_comments_data`:
`df['is_toxic'] = df['comment'].apply(detect_toxic_comments)` replaces
the whole column, ignoring any stored label. -/
def relabelRow {Vec : Type} (store : Store Vec) (r : CsvRow) : LoadedRow :=
  ⟨r.comment, r.username, r.timestamp, r.profile_color, r.avatar,
    (detect_toxic_comments store r.comment).label⟩

/-- The no-backfill branch of `load_comments_data`: stored labels are
kept, with `fillna(False)` defaulting absent cells. -/
def keepRow (r : CsvRow) : LoadedRow :=
  ⟨r.comment, r.username, r.timestamp, r.profile_color, r.avatar,
    r.is_toxic.getD false⟩

/-- Output of one `load_comments_data` call: the returned rows, how many
`detect_toxic_comments` invocations (reclassifications) the call made,
and whether the missing-file warning was shown. -/
structure LoadResult where
  rows : List LoadedRow
  classifyCalls : Nat
  warned : Bool
  deriving DecidableEq, Repr

/-- Embeds `admin.py::load_comments_data`.  The second component of the
result is the comments CSV after the call: the Python body only ever
reads the file (`pd.read_csv`) and never writes it, so the file is
returned unchanged.  If the file is missing an empty frame is returned
with a warning.  If the `is_toxic` column is absent or any of its cells
is NaN, the whole column is recomputed by applying
`detect_toxic_comments` to every comment; otherwise stored labels are
kept.  Timestamp coercion (`errors='coerce'`) only degrades malformed
cells and is kept abstract as the stored optional string. -/
def load_comments_data {Vec : Type} (store : Store Vec)
    (fileData : Option CommentsCsv) : LoadResult × Option CommentsCsv :=
  match fileData with
  | none => (⟨[], 0, true⟩, none)
  | some csv =>
    if !csv.hasToxicCol || csv.rows.any (fun r => r.is_toxic.isNone) then
      (⟨csv.rows.map (relabelRow store), csv.rows.length, false⟩, some csv)
    else
      (⟨csv.rows.map keepRow, 0, false⟩, some csv)

/-- A user profile as produced by `user.py::generate_user_profile`.
The username, colour and timestamp are drawn from `random` and the
clock, so a profile is an input to each workflow step rather than a
computed value. -/
structure Profile where
  username : String
  profile_color : String
  timestamp : String
  deriving DecidableEq, Repr

/-- The in-memory comment dict appended to
`st.session_state.submitted_comments` for the feed display. -/
structure CommentData where
  comment : String
  username : String
  timestamp : String
  profile_color : String
  deriving DecidableEq, Repr

/-- One row of the persisted comment ledger, in the column order of
`submitted_comments.csv`. -/
structure LedgerRow where
  comment : String
  username : String
  timestamp : String
  profile_color : String
  avatar : String
  is_toxic : Bool
  deriving DecidableEq, Repr

/-- Embeds `user.py::save_comment_to_csv`: read the existing rows,
concatenate the single new row (avatar left blank), and write the file
back — an append of exactly one row. -/
def save_comment_to_csv (comment username profile_color timestamp : String)
    (is_toxic : Bool) (ledger : List LedgerRow) : List LedgerRow :=
  ledger ++ [⟨comment, username, timestamp, profile_color, "", is_toxic⟩]

/-- The Streamlit session state used by the moderation workflow in
`user.py::main`: the in-memory feed and the pending flagged text.
`toxic_comment = none` is the draft screen, `toxic_comment = some t`
the flagged screen for text `t`. -/
structure SessionState where
  submitted_comments : List CommentData
  toxic_comment : Option String
  deriving DecidableEq, Repr

/-- One user interaction with the workflow.  Every event carries the
current content of the visible text area: `submit` the draft box,
and the three flagged-screen buttons the edit box (which `submitAnyway`
and `cancel` read but ignore, exactly as the handlers do). -/
inductive Event where
  | submit (text : String)
  | recheck (edited : String)
  | submitAnyway (edited : String)
  | cancel (edited : String)
  deriving DecidableEq, Repr

/-- Python's `str.strip()` used by the submit handler, modelled on the
character list of the string: whitespace is dropped from both ends.
The handler only tests the result for emptiness
(`if not comment.strip()`). -/
def strip (s : String) : List Char :=
  ((s.data.dropWhile Char.isWhitespace).reverse.dropWhile
    Char.isWhitespace).reverse

/-- Result of one workflow step: the new session state, the ledger
after the step, the number of `predict_toxicity` invocations the step
made, and whether the empty-comment warning was shown. -/
structure StepResult where
  session : SessionState
  ledger : List LedgerRow
  predictCalls : Nat
  warned : Bool
  deriving DecidableEq, Repr

/-- Embeds one button-press of `user.py::main` as a step function.
On the flagged screen (`toxic_comment = some flagged`):
`recheck` classifies the edited text — if still toxic only `st.error`
is shown (the stored flagged text is left as it was), otherwise the
edited text is appended to the feed and the CSV with `is_toxic=False`
and the flag is cleared; `submitAnyway` appends the *stored* flagged
text with `is_toxic=True` and clears the flag; `cancel` just clears the
flag.  On the draft screen, `submit` warns on blank input, flags toxic
input without writing, and otherwise publishes with `is_toxic=False`.
Events whose widget is not rendered in the current screen are
no-ops. -/
def step {Vec : Type} (tfidf : Tfidf Vec) (model : Model Vec) (p : Profile)
    (s : SessionState) (ledger : List LedgerRow) (e : Event) : StepResult :=
  match s.toxic_comment with
  | some flagged =>
    match e with
    | .recheck edited =>
      if predict_toxicity edited tfidf model then
        ⟨s, ledger, 1, false⟩
      else
        ⟨⟨s.submitted_comments ++ [⟨edited, p.username, p.timestamp, p.profile_color⟩], none⟩,
          save_comment_to_csv edited p.username p.profile_color p.timestamp false ledger,
          1, false⟩
    | .submitAnyway _ =>
      ⟨⟨s.submitted_comments ++ [⟨flagged, p.username, p.timestamp, p.profile_color⟩], none⟩,
        save_comment_to_csv flagged p.username p.profile_color p.timestamp true ledger,
        0, false⟩
    | .cancel _ => ⟨⟨s.submitted_comments, none⟩, ledger, 0, false⟩
    | .submit _ => ⟨s, ledger, 0, false⟩
  | none =>
    match e with
    | .submit text =>
      if strip text = [] then
        ⟨s, ledger, 0, true⟩
      else if predict_toxicity text tfidf model then
        ⟨⟨s.submitted_comments, some text⟩, ledger, 1, false⟩
      else
        ⟨⟨s.submitted_comments ++ [⟨text, p.username, p.timestamp, p.profile_color⟩], none⟩,
          save_comment_to_csv text p.username p.profile_color p.timestamp false ledger,
          1, false⟩
    | _ => ⟨s, ledger, 0, false⟩

/-- One row of the training dataset CSV; optional fields model NaN
cells dropped by `dropna`. -/
structure CorpusRow where
  text : Option String
  label : Option Nat
  deriving DecidableEq, Repr

/-- The training dataset as read by `pd.read_csv(dataset_path)`:
whether the required columns are present, and the parsed rows. -/
structure Corpus where
  hasText : Bool
  hasLabel : Bool
  rows : List CorpusRow
  deriving DecidableEq, Repr

/-- The `data.dropna(subset=['text','label'])` step of `train_model`:
keep exactly the rows where both fields are present. -/
def cleanRows (corpus : Corpus) : List (String × Nat) :=
  corpus.rows.filterMap fun r =>
    match r.text, r.label with
    | some t, some l => some (t, l)
    | _, _ => none

/-- The distinct values of a list in first-occurrence order (the class
values sklearn sees in a label vector). -/
def distincts (l : List Nat) : List Nat :=
  l.foldl (fun acc x => if x ∈ acc then acc else acc ++ [x]) []

/-- Failure conditions raised inside `train_model` before any artifact
is written: the explicit missing-column check, and the `ValueError`s
sklearn raises for an empty input, a stratification class with fewer
than two members, and a training label vector with fewer than two
distinct classes.  The spec taxonomy groups the last three as
`InvalidTrainingData` / `EmptyTrainingSet`. -/
inductive TrainError where
  | missingColumns
  | emptySet
  | stratifyTooFew
  | singleClass
  deriving DecidableEq, Repr

/-- Modelled from sklearn's documented contract for
`train_test_split(..., test_size=0.2, random_state=k, stratify=y)`:
the held-out rows of one label class are a seed-determined 20%
(rounded up) of that class.  The seed enters as a deterministic
rotation of the class rows, standing in for sklearn's seeded shuffle:
what matters for the program is that the selection is a fixed function
of (seed, rows) that stays inside the class. -/
def classTest (seed : Nat) (rows : List (String × Nat)) (l : Nat) :
    List (String × Nat) :=
  let cls := rows.filter fun r => r.2 = l
  (cls.rotate (seed % (cls.length + 1))).take ((cls.length + 4) / 5)

/-- The complementary 80% training portion of one label class under the
same seeded selection as `classTest`. -/
def classTrain (seed : Nat) (rows : List (String × Nat)) (l : Nat) :
    List (String × Nat) :=
  let cls := rows.filter fun r => r.2 = l
  (cls.rotate (seed % (cls.length + 1))).drop ((cls.length + 4) / 5)

/-- Modelled from sklearn's documented contract for
`train_test_split(X, y, test_size=0.2, random_state=seed, stratify=y)`:
raises on an empty input, raises when the least populated class has
fewer than two members, and otherwise returns the per-class 80/20
partition assembled class by class. -/
def train_test_split (seed : Nat) (rows : List (String × Nat)) :
    Except TrainError (List (String × Nat) × List (String × Nat)) :=
  if rows.isEmpty then .error .emptySet
  else
    let labs := distincts (rows.map Prod.snd)
    if labs.any (fun l => (rows.filter fun r => r.2 = l).length < 2) then
      .error .stratifyTooFew
    else
      .ok (((labs.map (classTrain seed rows)).flatten),
           ((labs.map (classTest seed rows)).flatten))

/-- The fitting procedures of the sklearn estimators constructed in
`train_model` (`TfidfVectorizer(max_features=10000, stop_words,
ngram_range=(1,2))` and `LogisticRegression(max_iter=1000,
random_state=42)`), abstracted: the numeric fitting itself is opaque,
while its failure condition is modelled explicitly in `train_model`. -/
structure Fitters (Vec : Type) where
  fitVec : List String → Tfidf Vec
  fitClf : List (Vec × Nat) → Model Vec

/-- Embeds `admin.py::train_model`.  Returns the outcome together with
the artifact store after the call.  Missing columns abort with an
`st.error` and no write.  After `dropna`, the rows are split by
`train_test_split` with `test_size=0.2`, `random_state=42`,
`stratify=y`; any `ValueError` it raises propagates (the function has
no `try`), leaving the store untouched.  The vectorizer is fitted on
the training texts only; `LogisticRegression.fit` raises when the
training labels contain fewer than two distinct classes, again leaving
the store untouched.  On success the evaluation metrics are displayed
(not persisted, carrying no further state) and both artifacts are
dumped, overwriting the store. -/
def train_model {Vec : Type} (F : Fitters Vec) (corpus : Corpus)
    (store : Store Vec) : Except TrainError Unit × Store Vec :=
  if ¬ (corpus.hasText ∧ corpus.hasLabel) then (.error .missingColumns, store)
  else
    match train_test_split 42 (cleanRows corpus) with
    | .error e => (.error e, store)
    | .ok (tr, _te) =>
      let tfidf := F.fitVec (tr.map Prod.fst)
      if (distincts (tr.map Prod.snd)).length < 2 then
        (.error .singleClass, store)
      else
        let model := F.fitClf (tr.map fun r => (tfidf.transform r.1, r.2))
        (.ok ⟨⟩, ⟨some tfidf, some model⟩)

/-- A concrete vectorizer over `Vec := Nat` used to evaluate the
embedding on closed inputs. -/
def zeroTfidf : Tfidf Nat := ⟨fun _ => 0⟩

/-- A concrete classifier predicting label 1 (toxic) for every vector. -/
def allToxicModel : Model Nat := ⟨fun _ => 1⟩

/-- A concrete classifier predicting label 0 (non-toxic) for every
vector. -/
def allCleanModel : Model Nat := ⟨fun _ => 0⟩

/-- A store holding a matched artifact pair that flags everything. -/
def toxicStore : Store Nat := ⟨some zeroTfidf, some allToxicModel⟩

/-- A store holding a matched artifact pair that flags nothing. -/
def cleanStore : Store Nat := ⟨some zeroTfidf, some allCleanModel⟩

/-- A concrete user profile for closed workflow runs. -/
def demoProfile : Profile :=
  ⟨"Tech Enthusiast", "rgb(120,140,160)", "2026-01-01 10:00:00"⟩

/-- C1, counterexample: with both artifact files absent, the admin
inference path `detect_toxic_comments` does not fail — it displays an
error and returns the defaulted non-toxic label `false` to its caller,
contradicting the claim that every inference request with a missing
artifact fails. -/
theorem detect_defaults_on_missing_artifacts :
    detect_toxic_comments (⟨none, none⟩ : Store Nat) (some "hello")
      = ⟨false, true⟩ := rfl

/-- C1, amended: when an artifact is absent, the user workflow's
`load_model` fails and surfaces the error (the script halts), so that
path never defaults a label; but the admin path's
`detect_toxic_comments` merely displays an error and returns `false`,
defaulting the classification to non-toxic instead of failing. -/
theorem artifact_missing_surfaced {Vec : Type} (store : Store Vec) (c : String)
    (hmiss : store.tfidf = none ∨ store.model = none) (hc : c ≠ "") :
    (∃ msg, load_model store = .error msg) ∧
    detect_toxic_comments store (some c) = ⟨false, true⟩ := by
  obtain ⟨t, m⟩ := store
  rcases hmiss with h | h
  · simp only at h
    subst h
    exact ⟨⟨"Model not found.", rfl⟩, by simp [detect_toxic_comments, hc]⟩
  · simp only at h
    subst h
    cases t with
    | none => exact ⟨⟨"Model not found.", rfl⟩, by simp [detect_toxic_comments, hc]⟩
    | some tf => exact ⟨⟨"Model not found.", rfl⟩, by simp [detect_toxic_comments, hc]⟩

/-- C1, witness for the amended theorem at the empty store and the
comment "hello". -/
theorem artifact_missing_surfaced_witness :
    ((⟨none, none⟩ : Store Nat).tfidf = none ∨
      (⟨none, none⟩ : Store Nat).model = none) ∧
    ("hello" ≠ "") ∧
    ((∃ msg, load_model (⟨none, none⟩ : Store Nat) = .error msg) ∧
      detect_toxic_comments (⟨none, none⟩ : Store Nat) (some "hello")
        = ⟨false, true⟩) :=
  ⟨Or.inl rfl, by decide,
    artifact_missing_surfaced (⟨none, none⟩ : Store Nat) "hello" (Or.inl rfl)
      (by decide)⟩

/-- A one-row comments CSV whose single row has no stored label. -/
def unlabeledCsv : CommentsCsv :=
  ⟨true, [⟨some "hello there", "Code Ninja", some "2026-01-01 09:00:00",
    "rgb(120,140,160)", "", none⟩]⟩

/-- C2, counterexample: loading a one-row ledger whose row lacks a
label leaves the backing file byte-for-byte unchanged (the function
never writes), so a second `load_all()` on the resulting file performs
a reclassification again — refuting the claim that the backfilled
labels are persisted and the second load reclassifies nothing. -/
theorem second_load_reclassifies :
    (load_comments_data cleanStore (some unlabeledCsv)).2 = some unlabeledCsv ∧
    ((load_comments_data cleanStore
        ((load_comments_data cleanStore (some unlabeledCsv)).2)).1).classifyCalls
      ≠ 0 := by
  constructor
  · rfl
  · decide

/-- C2, amended: `load_all()` on a ledger with missing labels returns
rows where every label is populated (the returned rows are the stored
rows relabelled to genuine booleans), but it does not persist the
backfilled values: the backing file is returned unchanged, the load
reclassifies every row, and a second `load_all()` on the resulting
file reclassifies every row again. -/
theorem load_backfills_without_persisting {Vec : Type} (store : Store Vec)
    (csv : CommentsCsv)
    (h : csv.hasToxicCol = false ∨ ∃ r ∈ csv.rows, r.is_toxic = none) :
    (load_comments_data store (some csv)).2 = some csv ∧
    ((load_comments_data store (some csv)).1).rows
      = csv.rows.map (relabelRow store) ∧
    ((load_comments_data store (some csv)).1).classifyCalls
      = csv.rows.length ∧
    ((load_comments_data store
        ((load_comments_data store (some csv)).2)).1).classifyCalls
      = csv.rows.length := by
  have hb : (!csv.hasToxicCol || csv.rows.any fun r => r.is_toxic.isNone)
      = true := by
    rcases h with h | ⟨r, hr, hnone⟩
    · simp [h]
    · simp only [Bool.or_eq_true, List.any_eq_true]
      exact Or.inr ⟨r, hr, by simp [hnone]⟩
  simp [load_comments_data, hb]

/-- C2, witness for the amended theorem at a concrete store and the
one-row unlabeled ledger. -/
theorem load_backfills_without_persisting_witness :
    (unlabeledCsv.hasToxicCol = false ∨
      ∃ r ∈ unlabeledCsv.rows, r.is_toxic = none) ∧
    ((load_comments_data cleanStore (some unlabeledCsv)).2
        = some unlabeledCsv ∧
      ((load_comments_data cleanStore (some unlabeledCsv)).1).rows
        = unlabeledCsv.rows.map (relabelRow cleanStore) ∧
      ((load_comments_data cleanStore (some unlabeledCsv)).1).classifyCalls
        = unlabeledCsv.rows.length ∧
      ((load_comments_data cleanStore
          ((load_comments_data cleanStore (some unlabeledCsv)).2)).1).classifyCalls
        = unlabeledCsv.rows.length) :=
  ⟨Or.inr (by decide),
    load_backfills_without_persisting cleanStore unlabeledCsv
      (Or.inr (by decide))⟩

/-- A two-row comments CSV: the first row carries a stored human label
`True`, the second has no label at all. -/
def overriddenCsv : CommentsCsv :=
  ⟨true,
    [⟨some "bad words here", "Pixel Pioneer", some "2026-01-02 09:00:00",
      "rgb(101,102,103)", "", some true⟩,
     ⟨some "hello there", "Code Ninja", none, "rgb(120,140,160)", "", none⟩]⟩

/-- C9: as soon as one row lacks an `is_toxic` value (or the column is
absent), `load_comments_data` replaces the whole label column: every
returned row carries the freshly computed `detect_toxic_comments`
label, and the stored label — including one set by human override —
is ignored by the relabelling. -/
theorem load_relabels_every_row {Vec : Type} (store : Store Vec)
    (csv : CommentsCsv)
    (h : csv.hasToxicCol = false ∨ ∃ r ∈ csv.rows, r.is_toxic = none) :
    ((load_comments_data store (some csv)).1).rows
      = csv.rows.map (relabelRow store) ∧
    ∀ r : CsvRow, (relabelRow store r).is_toxic
      = (detect_toxic_comments store r.comment).label := by
  have hb : (!csv.hasToxicCol || csv.rows.any fun r => r.is_toxic.isNone)
      = true := by
    rcases h with h | ⟨r, hr, hnone⟩
    · simp [h]
    · simp only [Bool.or_eq_true, List.any_eq_true]
      exact Or.inr ⟨r, hr, by simp [hnone]⟩
  exact ⟨by simp [load_comments_data, hb], fun r => rfl⟩

/-- C9, witness at the non-toxic store and the ledger holding one
human-labelled row and one unlabelled row: the stored `True` of the
first row is replaced by the recomputed label. -/
theorem load_relabels_every_row_witness :
    (overriddenCsv.hasToxicCol = false ∨
      ∃ r ∈ overriddenCsv.rows, r.is_toxic = none) ∧
    (((load_comments_data cleanStore (some overriddenCsv)).1).rows
        = overriddenCsv.rows.map (relabelRow cleanStore) ∧
      ∀ r : CsvRow, (relabelRow cleanStore r).is_toxic
        = (detect_toxic_comments cleanStore r.comment).label) :=
  ⟨Or.inr (by decide),
    load_relabels_every_row cleanStore overriddenCsv (Or.inr (by decide))⟩

/-- C3: from the flagged screen, Submit Anyway appends exactly one
ledger row whose text is the stored flagged text — whatever the edit
box currently contains — with `is_toxic = true`, and the flagged
session ends (`toxic_comment` is cleared). -/
theorem override_appends_original_as_toxic {Vec : Type} (tfidf : Tfidf Vec)
    (model : Model Vec) (p : Profile) (s : SessionState)
    (ledger : List LedgerRow) (flagged edited : String)
    (h : s.toxic_comment = some flagged) :
    (step tfidf model p s ledger (.submitAnyway edited)).ledger
      = ledger ++ [⟨flagged, p.username, p.timestamp, p.profile_color, "", true⟩] ∧
    (step tfidf model p s ledger (.submitAnyway edited)).session.toxic_comment
      = none := by
  simp [step, h, save_comment_to_csv]

/-- C3, witness: overriding the flagged "idiot comment" while the edit
box shows different text publishes the original text as toxic. -/
theorem override_appends_original_as_toxic_witness :
    ((⟨[], some "idiot comment"⟩ : SessionState).toxic_comment
        = some "idiot comment") ∧
    ((step zeroTfidf allToxicModel demoProfile
          (⟨[], some "idiot comment"⟩ : SessionState) []
          (.submitAnyway "totally different text")).ledger
        = [] ++ [⟨"idiot comment", demoProfile.username, demoProfile.timestamp,
            demoProfile.profile_color, "", true⟩] ∧
      (step zeroTfidf allToxicModel demoProfile
          (⟨[], some "idiot comment"⟩ : SessionState) []
          (.submitAnyway "totally different text")).session.toxic_comment
        = none) :=
  ⟨rfl,
    override_appends_original_as_toxic zeroTfidf allToxicModel demoProfile
      (⟨[], some "idiot comment"⟩ : SessionState) [] "idiot comment"
      "totally different text" rfl⟩

/-- C4, counterexample: with a classifier flagging everything, a
re-check of the edited text "nice comment" from the flagged session
for "idiot comment" leaves `toxic_comment` holding the *old* text, not
the edited one — refuting the claim that the edited text is
substituted for the previously stored flagged text. -/
theorem recheck_does_not_substitute :
    (step zeroTfidf allToxicModel demoProfile
        (⟨[], some "idiot comment"⟩ : SessionState) []
        (.recheck "nice comment")).session.toxic_comment
      = some "idiot comment" ∧
    (some "idiot comment" : Option String) ≠ some "nice comment" ∧
    (step zeroTfidf allToxicModel demoProfile
        (⟨[], some "idiot comment"⟩ : SessionState) []
        (.recheck "nice comment")).ledger = [] :=
  ⟨rfl, by decide, rfl⟩

/-- C4, amended: a re-check whose edited text is still classified
toxic writes nothing to the ledger and leaves the session flagged, but
with the previously stored flagged text retained — the edited text is
not substituted (only `st.error` is shown; the step makes exactly one
classification call). -/
theorem recheck_toxic_keeps_previous_text {Vec : Type} (tfidf : Tfidf Vec)
    (model : Model Vec) (p : Profile) (s : SessionState)
    (ledger : List LedgerRow) (flagged edited : String)
    (h : s.toxic_comment = some flagged)
    (htox : predict_toxicity edited tfidf model = true) :
    step tfidf model p s ledger (.recheck edited) = ⟨s, ledger, 1, false⟩ := by
  simp [step, h, htox]

/-- C4, witness for the amended theorem: the still-toxic re-check of
"nice comment" leaves session and ledger exactly as they were. -/
theorem recheck_toxic_keeps_previous_text_witness :
    ((⟨[], some "idiot comment"⟩ : SessionState).toxic_comment
        = some "idiot comment") ∧
    (predict_toxicity "nice comment" zeroTfidf allToxicModel = true) ∧
    (step zeroTfidf allToxicModel demoProfile
        (⟨[], some "idiot comment"⟩ : SessionState) []
        (.recheck "nice comment")
      = ⟨⟨[], some "idiot comment"⟩, [], 1, false⟩) :=
  ⟨rfl, rfl,
    recheck_toxic_keeps_previous_text zeroTfidf allToxicModel demoProfile
      (⟨[], some "idiot comment"⟩ : SessionState) [] "idiot comment"
      "nice comment" rfl rfl⟩

/-- C6: Cancel from the flagged screen clears the flag (destroying the
moderation session), appends nothing to the in-memory feed, performs
no classification, and leaves the ledger exactly as it was. -/
theorem cancel_writes_nothing {Vec : Type} (tfidf : Tfidf Vec)
    (model : Model Vec) (p : Profile) (s : SessionState)
    (ledger : List LedgerRow) (flagged edited : String)
    (h : s.toxic_comment = some flagged) :
    step tfidf model p s ledger (.cancel edited)
      = ⟨⟨s.submitted_comments, none⟩, ledger, 0, false⟩ := by
  simp [step, h]

/-- C6, witness: cancelling the flagged "idiot comment" leaves the
ledger empty and ends the session. -/
theorem cancel_writes_nothing_witness :
    ((⟨[], some "idiot comment"⟩ : SessionState).toxic_comment
        = some "idiot comment") ∧
    (step zeroTfidf allToxicModel demoProfile
        (⟨[], some "idiot comment"⟩ : SessionState) []
        (.cancel "whatever")
      = ⟨⟨[], none⟩, [], 0, false⟩) :=
  ⟨rfl,
    cancel_writes_nothing zeroTfidf allToxicModel demoProfile
      (⟨[], some "idiot comment"⟩ : SessionState) [] "idiot comment"
      "whatever" rfl⟩

/-- C10: submitting a comment that is empty or whitespace-only from
the draft screen shows the "Please enter a comment" warning and does
nothing else: no classification call, no ledger row, and the session
is unchanged (still in draft). -/
theorem blank_submit_no_effect {Vec : Type} (tfidf : Tfidf Vec)
    (model : Model Vec) (p : Profile) (s : SessionState)
    (ledger : List LedgerRow) (text : String)
    (hdraft : s.toxic_comment = none) (hblank : strip text = []) :
    step tfidf model p s ledger (.submit text) = ⟨s, ledger, 0, true⟩ := by
  simp [step, hdraft, hblank]

/-- C10, witness: submitting three spaces from an empty draft session
only warns. -/
theorem blank_submit_no_effect_witness :
    ((⟨[], none⟩ : SessionState).toxic_comment = none) ∧
    (strip "   " = []) ∧
    (step zeroTfidf allToxicModel demoProfile (⟨[], none⟩ : SessionState) []
        (.submit "   ")
      = ⟨⟨[], none⟩, [], 0, true⟩) :=
  ⟨rfl, by decide,
    blank_submit_no_effect zeroTfidf allToxicModel demoProfile
      (⟨[], none⟩ : SessionState) [] "   " rfl (by decide)⟩

/-- C8: classification is deterministic across the workflow's two call
sites: if submitting text `t` got it flagged (first `predict_toxicity`
call returned toxic), then a re-check of the unchanged text `t` — the
second `predict_toxicity` call on the same text and the same loaded
artifact pair — again returns toxic, so the step changes nothing but
the call count: same session, same ledger, no publication. -/
theorem inference_deterministic_across_calls {Vec : Type} (tfidf : Tfidf Vec)
    (model : Model Vec) (p q : Profile) (s : SessionState)
    (ledger : List LedgerRow) (t : String)
    (hdraft : s.toxic_comment = none) (hne : ¬ strip t = [])
    (hflag : (step tfidf model p s ledger (.submit t)).session.toxic_comment
      = some t) :
    step tfidf model q (step tfidf model p s ledger (.submit t)).session
        (step tfidf model p s ledger (.submit t)).ledger (.recheck t)
      = ⟨(step tfidf model p s ledger (.submit t)).session,
         (step tfidf model p s ledger (.submit t)).ledger, 1, false⟩ := by
  cases htox : predict_toxicity t tfidf model with
  | false => simp [step, hdraft, hne, htox] at hflag
  | true => simp [step, hdraft, hne, htox]

/-- C8, witness: with the everything-toxic artifacts, submitting
"idiot comment" flags it, and the re-check inference call on the same
text agrees with the first call. -/
theorem inference_deterministic_across_calls_witness :
    ((⟨[], none⟩ : SessionState).toxic_comment = none) ∧
    (¬ strip "idiot comment" = []) ∧
    ((step zeroTfidf allToxicModel demoProfile (⟨[], none⟩ : SessionState) []
        (.submit "idiot comment")).session.toxic_comment
      = some "idiot comment") ∧
    (step zeroTfidf allToxicModel demoProfile
        (step zeroTfidf allToxicModel demoProfile (⟨[], none⟩ : SessionState)
          [] (.submit "idiot comment")).session
        (step zeroTfidf allToxicModel demoProfile (⟨[], none⟩ : SessionState)
          [] (.submit "idiot comment")).ledger (.recheck "idiot comment")
      = ⟨(step zeroTfidf allToxicModel demoProfile
            (⟨[], none⟩ : SessionState) [] (.submit "idiot comment")).session,
         (step zeroTfidf allToxicModel demoProfile
            (⟨[], none⟩ : SessionState) [] (.submit "idiot comment")).ledger,
         1, false⟩) :=
  ⟨rfl, by decide, by decide,
    inference_deterministic_across_calls zeroTfidf allToxicModel demoProfile
      demoProfile (⟨[], none⟩ : SessionState) [] "idiot comment" rfl
      (by decide) (by decide)⟩

/-- Membership in the `distincts` fold: an element is in the
accumulated list iff it was in the accumulator or in the remaining
input. -/
theorem mem_foldl_distincts (l : List Nat) :
    ∀ (acc : List Nat) (x : Nat),
      (x ∈ l.foldl (fun acc x => if x ∈ acc then acc else acc ++ [x]) acc ↔
        x ∈ acc ∨ x ∈ l) := by
  induction l with
  | nil => intro acc x; simp
  | cons a l ih =>
    intro acc x
    simp only [List.foldl_cons]
    rw [ih]
    by_cases h : a ∈ acc
    · simp only [if_pos h, List.mem_cons]
      constructor
      · rintro (hx | hx)
        · exact Or.inl hx
        · exact Or.inr (Or.inr hx)
      · rintro (hx | hx | hx)
        · exact Or.inl hx
        · exact Or.inl (hx ▸ h)
        · exact Or.inr hx
    · simp only [if_neg h, List.mem_append, List.mem_singleton, List.mem_cons]
      tauto

/-- An element is in `distincts l` iff it is in `l`. -/
theorem mem_distincts {l : List Nat} {x : Nat} :
    x ∈ distincts l ↔ x ∈ l := by
  simpa using mem_foldl_distincts l [] x

/-- The `distincts` fold preserves freedom from duplicates. -/
theorem nodup_foldl_distincts (l : List Nat) :
    ∀ acc : List Nat, acc.Nodup →
      (l.foldl (fun acc x => if x ∈ acc then acc else acc ++ [x]) acc).Nodup := by
  induction l with
  | nil => intro acc h; simpa using h
  | cons a l ih =>
    intro acc h
    simp only [List.foldl_cons]
    apply ih
    by_cases ha : a ∈ acc
    · simpa [ha] using h
    · rw [if_neg ha, List.nodup_append]
      refine ⟨h, List.nodup_singleton a, ?_⟩
      intro x hx hxa
      exact ha ((List.mem_singleton.mp hxa) ▸ hx)

/-- `distincts l` has no duplicates. -/
theorem distincts_nodup (l : List Nat) : (distincts l).Nodup :=
  nodup_foldl_distincts l [] List.nodup_nil

/-- A list whose distinct values number exactly one is constant. -/
theorem all_eq_of_distincts_length_one {m : List Nat}
    (h : (distincts m).length = 1) : ∃ l, ∀ x ∈ m, x = l := by
  cases hd : distincts m with
  | nil => rw [hd] at h; simp at h
  | cons a t =>
    cases t with
    | nil =>
      refine ⟨a, fun x hx => ?_⟩
      have hmem := mem_distincts.mpr hx
      rw [hd] at hmem
      simpa using hmem
    | cons b t2 => rw [hd] at h; simp at h

/-- A constant list has at most one distinct value. -/
theorem distincts_length_le_one {m : List Nat} {l : Nat}
    (h : ∀ x ∈ m, x = l) : (distincts m).length ≤ 1 := by
  have hsub : distincts m ⊆ [l] := by
    intro x hx
    simp [h x (mem_distincts.mp hx)]
  have hsp := (distincts_nodup m).subperm hsub
  simpa using hsp.length_le

/-- C5: a training corpus (with the required columns) whose surviving
rows carry a single distinct label value makes `train_model` fail —
either at the stratified split (a class below two members) or at the
classifier fit (fewer than two classes in the training labels), the
conditions the spec taxonomy calls `InvalidTrainingData` — and the
artifact store is returned untouched: neither the classifier nor the
vectorizer is written or overwritten. -/
theorem single_label_train_fails {Vec : Type} (F : Fitters Vec)
    (corpus : Corpus) (store : Store Vec)
    (hcols : corpus.hasText = true ∧ corpus.hasLabel = true)
    (hsingle : (distincts ((cleanRows corpus).map Prod.snd)).length = 1) :
    ∃ e, train_model F corpus store = (.error e, store) ∧
      (e = TrainError.stratifyTooFew ∨ e = TrainError.singleClass) := by
  obtain ⟨l, hl⟩ := all_eq_of_distincts_length_one hsingle
  have hne : cleanRows corpus ≠ [] := by
    intro h0
    rw [h0] at hsingle
    simp [distincts] at hsingle
  by_cases hstrat : ((distincts ((cleanRows corpus).map Prod.snd)).any
      fun l2 => ((cleanRows corpus).filter fun r => r.2 = l2).length < 2) = true
  · refine ⟨TrainError.stratifyTooFew, ?_, Or.inl rfl⟩
    have hsplit : train_test_split 42 (cleanRows corpus)
        = .error .stratifyTooFew := by
      simp [train_test_split, hne, hstrat]
    simp [train_model, hcols.1, hcols.2, hsplit]
  · have hstrat2 : ((distincts ((cleanRows corpus).map Prod.snd)).any
        fun l2 => ((cleanRows corpus).filter fun r => r.2 = l2).length < 2)
        = false := by
      simpa using hstrat
    have hsplit : train_test_split 42 (cleanRows corpus)
        = .ok ((((distincts ((cleanRows corpus).map Prod.snd)).map
              (classTrain 42 (cleanRows corpus))).flatten),
            (((distincts ((cleanRows corpus).map Prod.snd)).map
              (classTest 42 (cleanRows corpus))).flatten)) := by
      simp [train_test_split, hne, hstrat2]
    have htr : ∀ x ∈ ((((distincts ((cleanRows corpus).map Prod.snd)).map
        (classTrain 42 (cleanRows corpus))).flatten).map Prod.snd), x = l := by
      intro x hx
      simp only [List.mem_map, List.mem_flatten] at hx
      obtain ⟨r, ⟨lst, ⟨l2, hl2, hleq⟩, hr⟩, hxr⟩ := hx
      subst hleq
      simp only [classTrain] at hr
      have h1 := List.drop_subset _ _ hr
      have h2 := (List.mem_rotate).mp h1
      have h3 := List.mem_filter.mp h2
      have hr2 : r.2 = l2 := by simpa using h3.2
      have hl2m : l2 ∈ (cleanRows corpus).map Prod.snd := mem_distincts.mp hl2
      have : l2 = l := hl l2 hl2m
      rw [← hxr, hr2, this]
    have hlt : (distincts (((((distincts ((cleanRows corpus).map Prod.snd)).map
        (classTrain 42 (cleanRows corpus))).flatten)).map Prod.snd)).length
        < 2 := by
      have := distincts_length_le_one htr
      omega
    refine ⟨TrainError.singleClass, ?_, Or.inr rfl⟩
    unfold train_model
    rw [if_neg (not_not_intro hcols), hsplit]
    dsimp only
    rw [if_pos hlt]

/-- Concrete fitters over `Vec := Nat` for closed training runs. -/
def natFitters : Fitters Nat :=
  ⟨fun _ => ⟨fun s => s.length⟩, fun _ => ⟨fun v => v % 2⟩⟩

/-- A two-row training corpus in which every row carries label 1. -/
def singleLabelCorpus : Corpus :=
  ⟨true, true, [⟨some "you are great", some 1⟩,
    ⟨some "you are awesome", some 1⟩]⟩

/-- C5, witness: training on the single-label corpus fails and leaves
the concrete store untouched. -/
theorem single_label_train_fails_witness :
    (singleLabelCorpus.hasText = true ∧ singleLabelCorpus.hasLabel = true) ∧
    ((distincts ((cleanRows singleLabelCorpus).map Prod.snd)).length = 1) ∧
    (∃ e, train_model natFitters singleLabelCorpus cleanStore
        = (.error e, cleanStore) ∧
      (e = TrainError.stratifyTooFew ∨ e = TrainError.singleClass)) :=
  ⟨⟨rfl, rfl⟩, by decide,
    single_label_train_fails natFitters singleLabelCorpus cleanStore
      ⟨rfl, rfl⟩ (by decide)⟩

/-- C7: the split `train_model` performs is
`train_test_split 42 (cleanRows corpus)` — the fixed seed 42 and fixed
20% held-out fraction of the source — and for a feasible corpus it
succeeds, is a pure function of the surviving rows (so repeated runs
on the same corpus produce the same partitions), and is
label-stratified: class by class, the test and train portions together
permute the class rows, every test row belongs to the class, and the
test portion is 20% of the class rounded up
(`class ≤ 5 * test < class + 5`). -/
theorem train_split_fixed_stratified (corpus : Corpus)
    (hne : cleanRows corpus ≠ [])
    (hfeas : ∀ l ∈ distincts ((cleanRows corpus).map Prod.snd),
      2 ≤ ((cleanRows corpus).filter fun r => r.2 = l).length) :
    train_test_split 42 (cleanRows corpus)
      = .ok ((((distincts ((cleanRows corpus).map Prod.snd)).map
            (classTrain 42 (cleanRows corpus))).flatten),
          (((distincts ((cleanRows corpus).map Prod.snd)).map
            (classTest 42 (cleanRows corpus))).flatten)) ∧
    (∀ corpus2 : Corpus, cleanRows corpus2 = cleanRows corpus →
      train_test_split 42 (cleanRows corpus2)
        = train_test_split 42 (cleanRows corpus)) ∧
    (∀ l ∈ distincts ((cleanRows corpus).map Prod.snd),
      (classTest 42 (cleanRows corpus) l
          ++ classTrain 42 (cleanRows corpus) l).Perm
        ((cleanRows corpus).filter fun r => r.2 = l) ∧
      (∀ r ∈ classTest 42 (cleanRows corpus) l, r.2 = l) ∧
      ((cleanRows corpus).filter fun r => r.2 = l).length
          ≤ 5 * (classTest 42 (cleanRows corpus) l).length ∧
      5 * (classTest 42 (cleanRows corpus) l).length
          < ((cleanRows corpus).filter fun r => r.2 = l).length + 5) := by
  have hstrat : ((distincts ((cleanRows corpus).map Prod.snd)).any
      fun l2 => ((cleanRows corpus).filter fun r => r.2 = l2).length < 2)
      = false := by
    rw [List.any_eq_false]
    intro l hl
    have := hfeas l hl
    simp
    omega
  refine ⟨?_, ?_, ?_⟩
  · simp [train_test_split, hne, hstrat]
  · intro corpus2 h2
    rw [h2]
  · intro l hl
    have hlen2 := hfeas l hl
    have hle : (((cleanRows corpus).filter fun r => r.2 = l).length + 4) / 5
        ≤ ((cleanRows corpus).filter fun r => r.2 = l).length := by omega
    have hlen3 : (classTest 42 (cleanRows corpus) l).length
        = (((cleanRows corpus).filter fun r => r.2 = l).length + 4) / 5 := by
      simp [classTest, List.length_take, List.length_rotate, Nat.min_eq_left hle]
    refine ⟨?_, ?_, ?_, ?_⟩
    · simp only [classTest, classTrain]
      rw [List.take_append_drop]
      exact List.rotate_perm _ _
    · intro r hr
      simp only [classTest] at hr
      have h1 := List.mem_of_mem_take hr
      have h2 := (List.mem_rotate).mp h1
      have h3 := List.mem_filter.mp h2
      simpa using h3.2
    · omega
    · omega

/-- A four-row training corpus with two rows per label class. -/
def stratCorpus : Corpus :=
  ⟨true, true, [⟨some "you are great", some 0⟩, ⟨some "nice day", some 0⟩,
    ⟨some "you are an idiot", some 1⟩, ⟨some "idiot comment", some 1⟩]⟩

/-- C7, witness at the balanced four-row corpus. -/
theorem train_split_fixed_stratified_witness :
    (cleanRows stratCorpus ≠ []) ∧
    (∀ l ∈ distincts ((cleanRows stratCorpus).map Prod.snd),
      2 ≤ ((cleanRows stratCorpus).filter fun r => r.2 = l).length) ∧
    (train_test_split 42 (cleanRows stratCorpus)
        = .ok ((((distincts ((cleanRows stratCorpus).map Prod.snd)).map
              (classTrain 42 (cleanRows stratCorpus))).flatten),
            (((distincts ((cleanRows stratCorpus).map Prod.snd)).map
              (classTest 42 (cleanRows stratCorpus))).flatten)) ∧
      (∀ corpus2 : Corpus, cleanRows corpus2 = cleanRows stratCorpus →
        train_test_split 42 (cleanRows corpus2)
          = train_test_split 42 (cleanRows stratCorpus)) ∧
      (∀ l ∈ distincts ((cleanRows stratCorpus).map Prod.snd),
        (classTest 42 (cleanRows stratCorpus) l
            ++ classTrain 42 (cleanRows stratCorpus) l).Perm
          ((cleanRows stratCorpus).filter fun r => r.2 = l) ∧
        (∀ r ∈ classTest 42 (cleanRows stratCorpus) l, r.2 = l) ∧
        ((cleanRows stratCorpus).filter fun r => r.2 = l).length
            ≤ 5 * (classTest 42 (cleanRows stratCorpus) l).length ∧
        5 * (classTest 42 (cleanRows stratCorpus) l).length
            < ((cleanRows stratCorpus).filter fun r => r.2 = l).length + 5)) :=
  ⟨by decide, by decide,
    train_split_fixed_stratified stratCorpus (by decide) (by decide)⟩

end OnlineHarm
